import Mathlib

/-!
Verification of the `create-prtw` scaffolding generator's configuration-to-plan
compiler and template-rendering engine.

The embedding follows the current generator source (the main CLI script):
user choices become the `Config` record, each external operation performed
after the bootstrap phase (scaffolder invocation, `chdir`, base dependency
install) becomes a `Step`, and the top-level control flow from the styling
section through the final `package.json` script merge becomes the pure
function `compile : Config → List Step`.  Template literals are transcribed
verbatim; JavaScript `${...}` interpolations become string concatenation.
Braces inside string literals are written with the `\x7b` / `\x7d` escapes.
-/

set_option maxRecDepth 100000

namespace CreatePrtw

/-- Framework prompt: "React (Vite)" or "Next.js". -/
inductive Framework where
  | reactVite
  | nextJs
deriving DecidableEq, Fintype

/-- Router prompt (asked only when framework is Next.js):
"App Router (Recommended)" or "Pages Router (Legacy)". -/
inductive Router where
  | appRouter
  | pagesRouter
deriving DecidableEq, Fintype

/-- Language prompt: "JavaScript" or "TypeScript". -/
inductive Language where
  | javascript
  | typescript
deriving DecidableEq, Fintype

/-- Package manager prompt: "npm", "yarn" or "bun". -/
inductive PM where
  | npm
  | yarn
  | bun
deriving DecidableEq, Fintype

/-- Styling prompt: "Tailwind", "Shadcn", "Vanilla CSS" or "None". -/
inductive Styling where
  | tailwind
  | shadcn
  | vanillaCss
  | noStyling
deriving DecidableEq, Fintype

/-- Tailwind version prompt (asked only when styling is Tailwind):
"v3 (Stable)" or "v4 (Experimental)". -/
inductive TailwindVersion where
  | v3
  | v4
deriving DecidableEq, Fintype

/-- State management prompt: "Redux Toolkit", "Zustand", "TanStack Query" or "Skip". -/
inductive StateManagement where
  | redux
  | zustand
  | tanstackQuery
  | skipState
deriving DecidableEq, Fintype

/-- Icon library prompt: "Lucide", "React Icons", "Iconify" or "Skip". -/
inductive Icons where
  | lucide
  | reactIcons
  | iconify
  | skipIcons
deriving DecidableEq, Fintype

/-- The immutable record of resolved answers.  `router` and
`tailwindVersion` are `Option`s because their prompts are gated by `when`
conditions; `codeQuality` holds the "Yes"/"No" answer as a `Bool`. -/
structure Config where
  framework : Framework
  router : Option Router
  language : Language
  packageManager : PM
  styling : Styling
  tailwindVersion : Option TailwindVersion
  stateManagement : StateManagement
  icons : Icons
  codeQuality : Bool
deriving DecidableEq

/-- `const isTypeScript = answers.language === "TypeScript"`. -/
def isTypeScript (c : Config) : Bool := c.language == Language.typescript

/-- `const isNextJs = answers.framework === "Next.js"`. -/
def isNextJs (c : Config) : Bool := c.framework == Framework.nextJs

/-- `const isAppRouter = answers.router === "App Router (Recommended)"`
(false when the router prompt was skipped). -/
def isAppRouter (c : Config) : Bool := c.router == some Router.appRouter

/-- `const fileExt = isTypeScript ? "tsx" : "jsx"`. -/
def fileExt (c : Config) : String := if isTypeScript c then "tsx" else "jsx"

/-- `const configExt = isTypeScript ? "ts" : "js"`; the source also inlines
the identical expression `isTypeScript ? "ts" : "js"` at non-component file
writes. -/
def configExt (c : Config) : String := if isTypeScript c then "ts" else "js"

/-- One external operation of the generation plan.  `installDeps` records one
package-manager invocation (the `-D` / `-d` dev flag is kept as a `Bool`,
the per-manager argv spelling being presentation); `runProcess` records the
one-shot `npx` codegen subcommands the script runs. -/
inductive Step where
  | ensureDir (path : String)
  | installDeps (manager : PM) (dev : Bool) (packages : List String)
  | runProcess (cmd : String) (args : List String)
  | writeFile (path : String) (content : String)
  | mergeScripts (entries : List (String × String))
deriving DecidableEq

/-- Contiguous-substring test on character lists. -/
def listHasSub (pat : List Char) : List Char → Bool
  | [] => pat.isEmpty
  | c :: rest => List.isPrefixOf pat (c :: rest) || listHasSub pat rest

/-- `hasSub s pat` is `true` exactly when `pat` occurs contiguously in `s`. -/
def hasSub (s pat : String) : Bool := listHasSub pat.toList s.toList

/-- String prefix test via character lists. -/
def strPrefix (p s : String) : Bool := List.isPrefixOf p.toList s.toList

/-- The Tailwind global stylesheet the script writes (the `cssContent`
template literal of the Tailwind branch). -/
def tailwindCssContent : String :=
  "@tailwind base;\n" ++
  "@tailwind components;\n" ++
  "@tailwind utilities;\n" ++
  "\n" ++
  "/* Custom CSS Variables for theming */\n" ++
  ":root \x7b\n" ++
  "  --background: 0 0% 100%;\n" ++
  "  --foreground: 222.2 84% 4.9%;\n" ++
  "  --card: 0 0% 100%;\n" ++
  "  --card-foreground: 222.2 84% 4.9%;\n" ++
  "  --popover: 0 0% 100%;\n" ++
  "  --popover-foreground: 222.2 84% 4.9%;\n" ++
  "  --primary: 222.2 47.4% 11.2%;\n" ++
  "  --primary-foreground: 210 40% 98%;\n" ++
  "  --secondary: 210 40% 96%;\n" ++
  "  --secondary-foreground: 222.2 84% 4.9%;\n" ++
  "  --muted: 210 40% 96%;\n" ++
  "  --muted-foreground: 215.4 16.3% 46.9%;\n" ++
  "  --accent: 210 40% 96%;\n" ++
  "  --accent-foreground: 222.2 84% 4.9%;\n" ++
  "  --destructive: 0 84.2% 60.2%;\n" ++
  "  --destructive-foreground: 210 40% 98%;\n" ++
  "  --border: 214.3 31.8% 91.4%;\n" ++
  "  --input: 214.3 31.8% 91.4%;\n" ++
  "  --ring: 222.2 84% 4.9%;\n" ++
  "  --radius: 0.5rem;\n" ++
  "\x7d\n" ++
  "\n" ++
  ".dark \x7b\n" ++
  "  --background: 222.2 84% 4.9%;\n" ++
  "  --foreground: 210 40% 98%;\n" ++
  "  --card: 222.2 84% 4.9%;\n" ++
  "  --card-foreground: 210 40% 98%;\n" ++
  "  --popover: 222.2 84% 4.9%;\n" ++
  "  --popover-foreground: 210 40% 98%;\n" ++
  "  --primary: 210 40% 98%;\n" ++
  "  --primary-foreground: 222.2 47.4% 11.2%;\n" ++
  "  --secondary: 217.2 32.6% 17.5%;\n" ++
  "  --secondary-foreground: 210 40% 98%;\n" ++
  "  --muted: 217.2 32.6% 17.5%;\n" ++
  "  --muted-foreground: 215 20.2% 65.1%;\n" ++
  "  --accent: 217.2 32.6% 17.5%;\n" ++
  "  --accent-foreground: 210 40% 98%;\n" ++
  "  --destructive: 0 62.8% 30.6%;\n" ++
  "  --destructive-foreground: 210 40% 98%;\n" ++
  "  --border: 217.2 32.6% 17.5%;\n" ++
  "  --input: 217.2 32.6% 17.5%;\n" ++
  "  --ring: 212.7 26.8% 83.9%;\n" ++
  "\x7d"

/-- The `typeImports` fragment of `generateButtonComponent` (TypeScript). -/
def buttonTypeImports : String :=
  "\ninterface ButtonProps \x7b\n" ++
  "  children: React.ReactNode;\n" ++
  "  variant?: 'primary' | 'secondary' | 'outline' | 'ghost';\n" ++
  "  size?: 'sm' | 'md' | 'lg';\n" ++
  "  onClick?: () => void;\n" ++
  "  disabled?: boolean;\n" ++
  "  className?: string;\n" ++
  "  type?: 'button' | 'submit' | 'reset';\n" ++
  "\x7d"

/-- `generateButtonComponent(styling, isTypeScript, icons)`.  Note that in the
class-driven branch the `{disabled && icons === "Lucide" ? ... <Loader2 ... }`
block is plain template-literal text (no `${...}`), so it is emitted verbatim
into the generated file for every icon choice. -/
def generateButtonComponent (styling : Styling) (ts : Bool) (icons : Icons) : String :=
  let typeImports := if ts then buttonTypeImports else ""
  let propTypes := if ts then ": ButtonProps" else ""
  let iconImport := if icons == Icons.lucide then "import \x7b Loader2 \x7d from 'lucide-react';" else ""
  if styling == Styling.tailwind || styling == Styling.shadcn then
    "import React from 'react';\n" ++ iconImport ++ typeImports ++
    "\n\nexport const Button" ++ propTypes ++ " = (\x7b\n" ++
    "  children,\n" ++
    "  variant = 'primary',\n" ++
    "  size = 'md',\n" ++
    "  onClick,\n" ++
    "  disabled = false,\n" ++
    "  className = '',\n" ++
    "  type = 'button',\n" ++
    "  ...props\n" ++
    "\x7d) => \x7b\n" ++
    "  const baseClasses = 'inline-flex items-center justify-center rounded-md font-medium transition-colors focus-visible:outline-none focus-visible:ring-2 focus-visible:ring-ring focus-visible:ring-offset-2 disabled:opacity-50 disabled:pointer-events-none';\n" ++
    "  \n" ++
    "  const variants = \x7b\n" ++
    "    primary: 'bg-primary text-primary-foreground hover:bg-primary/90',\n" ++
    "    secondary: 'bg-secondary text-secondary-foreground hover:bg-secondary/80',\n" ++
    "    outline: 'border border-input bg-background hover:bg-accent hover:text-accent-foreground',\n" ++
    "    ghost: 'hover:bg-accent hover:text-accent-foreground'\n" ++
    "  \x7d;\n" ++
    "  \n" ++
    "  const sizes = \x7b\n" ++
    "    sm: 'h-9 px-3 text-sm',\n" ++
    "    md: 'h-10 px-4 py-2',\n" ++
    "    lg: 'h-11 px-8 text-lg'\n" ++
    "  \x7d;\n" ++
    "  \n" ++
    "  return (\n" ++
    "    <button\n" ++
    "      type=\x7btype\x7d\n" ++
    "      className=\x7b`$\x7bbaseClasses\x7d $\x7bvariants[variant]\x7d $\x7bsizes[size]\x7d $\x7bclassName\x7d`\x7d\n" ++
    "      onClick=\x7bonClick\x7d\n" ++
    "      disabled=\x7bdisabled\x7d\n" ++
    "      \x7b...props\x7d\n" ++
    "    >\n" ++
    "      \x7bdisabled && icons === \"Lucide\" ? (\n" ++
    "        <>\n" ++
    "          <Loader2 className=\"mr-2 h-4 w-4 animate-spin\" />\n" ++
    "          Loading...\n" ++
    "        </>\n" ++
    "      ) : (\n" ++
    "        children\n" ++
    "      )\x7d\n" ++
    "    </button>\n" ++
    "  );\n" ++
    "\x7d;"
  else
    "import React from 'react';" ++ typeImports ++
    "\n\nexport const Button" ++ propTypes ++ " = (\x7b\n" ++
    "  children,\n" ++
    "  variant = 'primary',\n" ++
    "  size = 'md',\n" ++
    "  onClick,\n" ++
    "  disabled = false,\n" ++
    "  className = '',\n" ++
    "  type = 'button',\n" ++
    "  ...props\n" ++
    "\x7d) => \x7b\n" ++
    "  return (\n" ++
    "    <button\n" ++
    "      type=\x7btype\x7d\n" ++
    "      className=\x7bclassName\x7d\n" ++
    "      onClick=\x7bonClick\x7d\n" ++
    "      disabled=\x7bdisabled\x7d\n" ++
    "      \x7b...props\x7d\n" ++
    "    >\n" ++
    "      \x7bchildren\x7d\n" ++
    "    </button>\n" ++
    "  );\n" ++
    "\x7d;"

/-- `generateLayoutComponent(styling, isTypeScript, icons)`; the `styling`
parameter is accepted but never read by the source body. -/
def generateLayoutComponent (_styling : Styling) (ts : Bool) (icons : Icons) : String :=
  let iconImports := if icons == Icons.lucide then "import \x7b Menu, X \x7d from 'lucide-react';" else ""
  let typeImports := if ts then "\ninterface LayoutProps \x7b\n  children: React.ReactNode;\n\x7d" else ""
  "import React, \x7b useState \x7d from 'react';\n" ++ iconImports ++
  "\nimport \x7b Button \x7d from '../ui/Button';" ++ typeImports ++
  "\n\nexport const Layout" ++ (if ts then ": React.FC<LayoutProps>" else "") ++ " = (\x7b children \x7d) => \x7b\n" ++
  "  const [isMenuOpen, setIsMenuOpen] = useState(false);\n" ++
  "\n" ++
  "  return (\n" ++
  "    <div className=\"min-h-screen\">\n" ++
  "      <header className=\"bg-background border-b border-border\">\n" ++
  "        <div className=\"container mx-auto px-4\">\n" ++
  "          <div className=\"flex items-center justify-between h-16\">\n" ++
  "            <div className=\"flex items-center\">\n" ++
  "              <h1 className=\"text-xl font-bold text-foreground\">\n" ++
  "                MyApp\n" ++
  "              </h1>\n" ++
  "            </div>\n" ++
  "\n" ++
  "            <nav className=\"hidden md:flex items-center space-x-8\">\n" ++
  "              <a href=\"/\" className=\"text-foreground hover:text-primary\">\n" ++
  "                Home\n" ++
  "              </a>\n" ++
  "              <a href=\"/about\" className=\"text-foreground hover:text-primary\">\n" ++
  "                About\n" ++
  "              </a>\n" ++
  "              <a href=\"/contact\" className=\"text-foreground hover:text-primary\">\n" ++
  "                Contact\n" ++
  "              </a>\n" ++
  "            </nav>\n" ++
  "\n" ++
  "            <div className=\"md:hidden\">\n" ++
  "              <Button\n" ++
  "                variant=\"ghost\"\n" ++
  "                size=\"sm\"\n" ++
  "                onClick=\x7b() => setIsMenuOpen(!isMenuOpen)\x7d\n" ++
  "              >\n" ++
  "                " ++
  (if icons == Icons.lucide then
    "\x7bisMenuOpen ? <X className=\"h-6 w-6\" /> : <Menu className=\"h-6 w-6\" />\x7d"
   else
    "\x7bisMenuOpen ? \"✕\" : \"☰\"\x7d") ++ "\n" ++
  "              </Button>\n" ++
  "            </div>\n" ++
  "          </div>\n" ++
  "\n" ++
  "          \x7bisMenuOpen && (\n" ++
  "            <div className=\"md:hidden\">\n" ++
  "              <div className=\"px-2 pt-2 pb-3 space-y-1 sm:px-3\">\n" ++
  "                <a href=\"/\" className=\"block px-3 py-2 text-foreground hover:bg-accent rounded-md\">\n" ++
  "                  Home\n" ++
  "                </a>\n" ++
  "                <a href=\"/about\" className=\"block px-3 py-2 text-foreground hover:bg-accent rounded-md\">\n" ++
  "                  About\n" ++
  "                </a>\n" ++
  "                <a href=\"/contact\" className=\"block px-3 py-2 text-foreground hover:bg-accent rounded-md\">\n" ++
  "                  Contact\n" ++
  "                </a>\n" ++
  "              </div>\n" ++
  "            </div>\n" ++
  "          )\x7d\n" ++
  "        </div>\n" ++
  "      </header>\n" ++
  "\n" ++
  "      <main className=\"flex-1\">\n" ++
  "        \x7bchildren\x7d\n" ++
  "      </main>\n" ++
  "\n" ++
  "      <footer className=\"bg-muted border-t border-border\">\n" ++
  "        <div className=\"container mx-auto px-4 py-8\">\n" ++
  "          <div className=\"text-center\">\n" ++
  "            <p className=\"text-muted-foreground\">\n" ++
  "              © 2024 MyApp. All rights reserved.\n" ++
  "            </p>\n" ++
  "          </div>\n" ++
  "        </div>\n" ++
  "      </footer>\n" ++
  "    </div>\n" ++
  "  );\n" ++
  "\x7d;"

/-- `generateThemeToggle(isTypeScript, icons)`; `icons` is never read. -/
def generateThemeToggle (ts : Bool) (_icons : Icons) : String :=
  "import React, \x7b useState, useEffect \x7d from 'react';\n" ++
  "import \x7b Button \x7d from '../ui/Button';\n" ++
  "\n" ++
  "export const ThemeToggle" ++ (if ts then ": React.FC" else "") ++ " = () => \x7b\n" ++
  "  const [theme, setTheme] = useState('light');\n" ++
  "\n" ++
  "  useEffect(() => \x7b\n" ++
  "    const savedTheme = localStorage.getItem('theme') || 'light';\n" ++
  "    setTheme(savedTheme);\n" ++
  "    document.documentElement.classList.toggle('dark', savedTheme === 'dark');\n" ++
  "  \x7d, []);\n" ++
  "\n" ++
  "  const toggleTheme = () => \x7b\n" ++
  "    const newTheme = theme === 'light' ? 'dark' : 'light';\n" ++
  "    setTheme(newTheme);\n" ++
  "    localStorage.setItem('theme', newTheme);\n" ++
  "    document.documentElement.classList.toggle('dark', newTheme === 'dark');\n" ++
  "  \x7d;\n" ++
  "\n" ++
  "  return (\n" ++
  "    <Button\n" ++
  "      variant=\"ghost\"\n" ++
  "      size=\"sm\"\n" ++
  "      onClick=\x7btoggleTheme\x7d\n" ++
  "      className=\"w-9 h-9 p-0\"\n" ++
  "    >\n" ++
  "      \x7btheme === 'light' ? '🌙' : '☀️'\x7d\n" ++
  "      <span className=\"sr-only\">Toggle theme</span>\n" ++
  "    </Button>\n" ++
  "  );\n" ++
  "\x7d;"

/-- `generateApiClient(isTypeScript)`. -/
def generateApiClient (ts : Bool) : String :=
  "import axios" ++ (if ts then ", \x7b AxiosResponse, AxiosError \x7d" else "") ++ " from 'axios';\n" ++
  "\n" ++
  "const api = axios.create(\x7b\n" ++
  "  baseURL: process.env.REACT_APP_API_URL || process.env.NEXT_PUBLIC_API_URL || 'http://localhost:3001/api',\n" ++
  "  timeout: 10000,\n" ++
  "  headers: \x7b\n" ++
  "    'Content-Type': 'application/json',\n" ++
  "  \x7d,\n" ++
  "\x7d);\n" ++
  "\n" ++
  "export const apiClient = \x7b\n" ++
  "  get: (url" ++ (if ts then ": string" else "") ++ ") => api.get(url),\n" ++
  "  post: (url" ++ (if ts then ": string" else "") ++ ", data" ++ (if ts then ": any" else "") ++ ") => api.post(url, data),\n" ++
  "  put: (url" ++ (if ts then ": string" else "") ++ ", data" ++ (if ts then ": any" else "") ++ ") => api.put(url, data),\n" ++
  "  delete: (url" ++ (if ts then ": string" else "") ++ ") => api.delete(url),\n" ++
  "\x7d;\n" ++
  "\n" ++
  "export default api;"

/-- `generateZustandStore(isTypeScript)`; the parameter is accepted but never
read, so the emitted store is untyped for both languages. -/
def generateZustandStore (_ts : Bool) : String :=
  "import \x7b create \x7d from 'zustand';\n" ++
  "\n" ++
  "export const useAuth = create((set) => (\x7b\n" ++
  "  user: null,\n" ++
  "  isAuthenticated: false,\n" ++
  "  login: (user) => set(\x7b user, isAuthenticated: true \x7d),\n" ++
  "  logout: () => set(\x7b user: null, isAuthenticated: false \x7d),\n" ++
  "\x7d));"

/-- `generateReduxSlice(isTypeScript)`; the parameter is never read. -/
def generateReduxSlice (_ts : Bool) : String :=
  "import \x7b createSlice \x7d from '@reduxjs/toolkit';\n" ++
  "\n" ++
  "const authSlice = createSlice(\x7b\n" ++
  "  name: 'auth',\n" ++
  "  initialState: \x7b\n" ++
  "    user: null,\n" ++
  "    isAuthenticated: false,\n" ++
  "  \x7d,\n" ++
  "  reducers: \x7b\n" ++
  "    login: (state, action) => \x7b\n" ++
  "      state.user = action.payload;\n" ++
  "      state.isAuthenticated = true;\n" ++
  "    \x7d,\n" ++
  "    logout: (state) => \x7b\n" ++
  "      state.user = null;\n" ++
  "      state.isAuthenticated = false;\n" ++
  "    \x7d,\n" ++
  "  \x7d,\n" ++
  "\x7d);\n" ++
  "\n" ++
  "export const \x7b login, logout \x7d = authSlice.actions;\n" ++
  "export default authSlice.reducer;"

/-- `generateReduxStore(isTypeScript)`; the parameter is never read. -/
def generateReduxStore (_ts : Bool) : String :=
  "import \x7b configureStore \x7d from '@reduxjs/toolkit';\n" ++
  "import authReducer from './authSlice';\n" ++
  "\n" ++
  "export const store = configureStore(\x7b\n" ++
  "  reducer: \x7b\n" ++
  "    auth: authReducer,\n" ++
  "  \x7d,\n" ++
  "\x7d);"

/-- `generateQueryClient(isTypeScript)`; the parameter is never read. -/
def generateQueryClient (_ts : Bool) : String :=
  "import \x7b QueryClient \x7d from '@tanstack/react-query';\n" ++
  "\n" ++
  "export const queryClient = new QueryClient(\x7b\n" ++
  "  defaultOptions: \x7b\n" ++
  "    queries: \x7b\n" ++
  "      staleTime: 1000 * 60 * 5,\n" ++
  "      cacheTime: 1000 * 60 * 10,\n" ++
  "    \x7d,\n" ++
  "  \x7d,\n" ++
  "\x7d);"

/-- `generateReactRoutes(isTypeScript, fileExt)`; `fileExt` is never read. -/
def generateReactRoutes (ts : Bool) (_ext : String) : String :=
  "import React from 'react';\n" ++
  "import \x7b BrowserRouter as Router, Routes, Route \x7d from 'react-router-dom';\n" ++
  "import \x7b Layout \x7d from '../components/layout/Layout';\n" ++
  "import HomePage from '../pages/HomePage';\n" ++
  "import AboutPage from '../pages/AboutPage';\n" ++
  "\n" ++
  "export const AppRoutes" ++ (if ts then ": React.FC" else "") ++ " = () => \x7b\n" ++
  "  return (\n" ++
  "    <Router>\n" ++
  "      <Layout>\n" ++
  "        <Routes>\n" ++
  "          <Route path=\"/\" element=\x7b<HomePage />\x7d />\n" ++
  "          <Route path=\"/about\" element=\x7b<AboutPage />\x7d />\n" ++
  "        </Routes>\n" ++
  "      </Layout>\n" ++
  "    </Router>\n" ++
  "  );\n" ++
  "\x7d;\n" ++
  "\n" ++
  "export default AppRoutes;"

/-- `generateReactApp(answers, isTypeScript, fileExt)`; no parameter is read. -/
def generateReactApp (_ts : Bool) (_ext : String) : String :=
  "import React from 'react';\n" ++
  "import AppRoutes from './routes/AppRoutes';\n" ++
  "import './index.css';\n" ++
  "\n" ++
  "function App() \x7b\n" ++
  "  return (\n" ++
  "    <div className=\"App\">\n" ++
  "      <AppRoutes />\n" ++
  "    </div>\n" ++
  "  );\n" ++
  "\x7d\n" ++
  "\n" ++
  "export default App;"

/-- `generateHomePage(answers, isTypeScript, fileExt)`; only `isTypeScript`
is read.  The markup carries Tailwind utility class names unconditionally. -/
def generateHomePage (ts : Bool) (_ext : String) : String :=
  "import React from 'react';\n" ++
  "import \x7b Button \x7d from '../components/ui/Button';\n" ++
  "\n" ++
  "const HomePage" ++ (if ts then ": React.FC" else "") ++ " = () => \x7b\n" ++
  "  return (\n" ++
  "    <div className=\"container mx-auto px-4 py-16\">\n" ++
  "      <div className=\"text-center\">\n" ++
  "        <h1 className=\"text-4xl font-bold mb-6\">Welcome to MyApp</h1>\n" ++
  "        <p className=\"text-xl mb-8\">A modern React application</p>\n" ++
  "        <Button variant=\"primary\">Get Started</Button>\n" ++
  "      </div>\n" ++
  "    </div>\n" ++
  "  );\n" ++
  "\x7d;\n" ++
  "\n" ++
  "export default HomePage;"

/-- `generateAboutPage(answers, isTypeScript, fileExt)`; only `isTypeScript`
is read. -/
def generateAboutPage (ts : Bool) (_ext : String) : String :=
  "import React from 'react';\n" ++
  "\n" ++
  "const AboutPage" ++ (if ts then ": React.FC" else "") ++ " = () => \x7b\n" ++
  "  return (\n" ++
  "    <div className=\"container mx-auto px-4 py-16\">\n" ++
  "      <h1 className=\"text-4xl font-bold mb-8\">About Us</h1>\n" ++
  "      <p className=\"text-lg\">This is the about page.</p>\n" ++
  "    </div>\n" ++
  "  );\n" ++
  "\x7d;\n" ++
  "\n" ++
  "export default AboutPage;"

/-- `generateProtectedRoute(answers, isTypeScript, fileExt)`; only
`isTypeScript` is read. -/
def generateProtectedRoute (ts : Bool) (_ext : String) : String :=
  "import React from 'react';\n" ++
  "import \x7b Navigate \x7d from 'react-router-dom';\n" ++
  "\n" ++
  "export const ProtectedRoute" ++ (if ts then ": React.FC<\x7b children: React.ReactNode \x7d>" else "") ++ " = (\x7b children \x7d) => \x7b\n" ++
  "  const isAuthenticated = false; // Replace with your auth logic\n" ++
  "\n" ++
  "  if (!isAuthenticated) \x7b\n" ++
  "    return <Navigate to=\"/login\" replace />;\n" ++
  "  \x7d\n" ++
  "\n" ++
  "  return <>\x7bchildren\x7d</>;\n" ++
  "\x7d;"

/-- `generateCustomHooks(isTypeScript)`. -/
def generateCustomHooks (ts : Bool) : String :=
  "import \x7b useState, useEffect \x7d from 'react';\n" ++
  "\n" ++
  "export const useLocalStorage = (key" ++ (if ts then ": string" else "") ++ ", initialValue" ++ (if ts then ": any" else "") ++ ") => \x7b\n" ++
  "  const [storedValue, setStoredValue] = useState(() => \x7b\n" ++
  "    try \x7b\n" ++
  "      const item = window.localStorage.getItem(key);\n" ++
  "      return item ? JSON.parse(item) : initialValue;\n" ++
  "    \x7d catch (error) \x7b\n" ++
  "      return initialValue;\n" ++
  "    \x7d\n" ++
  "  \x7d);\n" ++
  "\n" ++
  "  const setValue = (value" ++ (if ts then ": any" else "") ++ ") => \x7b\n" ++
  "    try \x7b\n" ++
  "      setStoredValue(value);\n" ++
  "      window.localStorage.setItem(key, JSON.stringify(value));\n" ++
  "    \x7d catch (error) \x7b\n" ++
  "      console.error(error);\n" ++
  "    \x7d\n" ++
  "  \x7d;\n" ++
  "\n" ++
  "  return [storedValue, setValue];\n" ++
  "\x7d;"

/-- `generateEslintConfig(isNextJs)` — the `JSON.stringify(..., null, 2)`
rendering of the config object. -/
def generateEslintConfig (next : Bool) : String :=
  "\x7b\n" ++
  "  \"extends\": [\n" ++
  (if next then "    \"next/core-web-vitals\",\n" else "    \"eslint:recommended\",\n") ++
  "    \"prettier\"\n" ++
  "  ],\n" ++
  "  \"plugins\": [\n" ++
  "    \"prettier\"\n" ++
  "  ],\n" ++
  "  \"rules\": \x7b\n" ++
  "    \"prettier/prettier\": \"error\"\n" ++
  "  \x7d\n" ++
  "\x7d"

/-- `generatePrettierConfig()` — `JSON.stringify` rendering. -/
def generatePrettierConfig : String :=
  "\x7b\n" ++
  "  \"semi\": true,\n" ++
  "  \"singleQuote\": true,\n" ++
  "  \"printWidth\": 80,\n" ++
  "  \"tabWidth\": 2\n" ++
  "\x7d"

/-- `generateCommitlintConfig()`. -/
def generateCommitlintConfig : String :=
  "module.exports = \x7b\n" ++
  "  extends: ['@commitlint/config-conventional'],\n" ++
  "\x7d;"

/-- `generateLintStagedConfig()` — `JSON.stringify` rendering. -/
def generateLintStagedConfig : String :=
  "\x7b\n" ++
  "  \"*.\x7bjs,jsx,ts,tsx\x7d\": [\n" ++
  "    \"eslint --fix\",\n" ++
  "    \"prettier --write\"\n" ++
  "  ],\n" ++
  "  \"*.\x7bjson,css,md\x7d\": [\n" ++
  "    \"prettier --write\"\n" ++
  "  ]\n" ++
  "\x7d"

/-- `generateUtils(isTypeScript)`. -/
def generateUtils (ts : Bool) : String :=
  "export const formatDate = (date" ++ (if ts then ": Date" else "") ++ ") => \x7b\n" ++
  "  return new Intl.DateTimeFormat('en-US').format(date);\n" ++
  "\x7d;\n" ++
  "\n" ++
  "export const debounce = (func" ++ (if ts then ": Function" else "") ++ ", wait" ++ (if ts then ": number" else "") ++ ") => \x7b\n" ++
  "  let timeout" ++ (if ts then ": NodeJS.Timeout" else "") ++ ";\n" ++
  "  return (...args" ++ (if ts then ": any[]" else "") ++ ") => \x7b\n" ++
  "    clearTimeout(timeout);\n" ++
  "    timeout = setTimeout(() => func(...args), wait);\n" ++
  "  \x7d;\n" ++
  "\x7d;"

/-- `generateTypes()` — the `src/types/index.ts` content. -/
def generateTypes : String :=
  "export interface User \x7b\n" ++
  "  id: string;\n" ++
  "  name: string;\n" ++
  "  email: string;\n" ++
  "\x7d\n" ++
  "\n" ++
  "export interface AuthState \x7b\n" ++
  "  user: User | null;\n" ++
  "  isAuthenticated: boolean;\n" ++
  "\x7d"

/-- Content of `.husky/pre-commit`. -/
def huskyPreCommit : String :=
  "#!/usr/bin/env sh\n. \"$(dirname -- \"$0\")/_/husky.sh\"\n\nnpx lint-staged\n"

/-- Content of `.husky/commit-msg` (the `${1}` is literal text of the JS
single-quoted string). -/
def huskyCommitMsg : String :=
  "#!/usr/bin/env sh\n. \"$(dirname -- \"$0\")/_/husky.sh\"\n\nnpx --no -- commitlint --edit $\x7b1\x7d\n"

/-- The Tailwind package spec installed for React/Vite:
`tailwindcss${answers.tailwindVersion === "v4 (Experimental)" ? "@next" : "@latest"}`. -/
def twPackage (c : Config) : String :=
  "tailwindcss" ++ (if c.tailwindVersion == some TailwindVersion.v4 then "@next" else "@latest")

/-- Steps of the "Setup styling" section.  The Tailwind and Shadcn branches
install Tailwind for React/Vite only (Next.js gets it from `create-next-app`);
the config/CSS writes use placeholder `{}` content where the source does. -/
def stylingSteps (c : Config) : List Step :=
  match c.styling with
  | Styling.tailwind =>
      (if isNextJs c then [] else
        [Step.installDeps c.packageManager true [twPackage c, "autoprefixer", "postcss"],
         Step.runProcess "npx" ["tailwindcss", "init", "-p"]]) ++
      [Step.writeFile ("tailwind.config." ++ configExt c) "\x7b\x7d",
       Step.writeFile (if isNextJs c then "src/app/globals.css" else "src/index.css") tailwindCssContent]
  | Styling.shadcn =>
      (if isNextJs c then [] else
        [Step.installDeps c.packageManager true ["tailwindcss@latest", "autoprefixer", "postcss"],
         Step.runProcess "npx" ["tailwindcss", "init", "-p"]]) ++
      [Step.installDeps c.packageManager false ["class-variance-authority", "clsx", "tailwind-merge", "lucide-react"],
       Step.installDeps c.packageManager true ["@types/node"],
       Step.writeFile "components.json" "\x7b\x7d"]
  | Styling.vanillaCss =>
      [Step.writeFile (if isNextJs c then "src/app/globals.css" else "src/index.css") "\x7b\x7d"]
  | Styling.noStyling => []

/-- Steps of the "Setup state management" section. -/
def stateSteps (c : Config) : List Step :=
  match c.stateManagement with
  | StateManagement.redux =>
      [Step.installDeps c.packageManager false ["@reduxjs/toolkit", "react-redux"]] ++
      (if isTypeScript c then [Step.installDeps c.packageManager true ["@types/react-redux"]] else [])
  | StateManagement.zustand =>
      [Step.installDeps c.packageManager false ["zustand"]]
  | StateManagement.tanstackQuery =>
      [Step.installDeps c.packageManager false ["@tanstack/react-query", "@tanstack/react-query-devtools"]]
  | StateManagement.skipState => []

/-- Steps of the "Setup icons" section. -/
def iconSteps (c : Config) : List Step :=
  match c.icons with
  | Icons.lucide => [Step.installDeps c.packageManager false ["lucide-react"]]
  | Icons.reactIcons => [Step.installDeps c.packageManager false ["react-icons"]]
  | Icons.iconify => [Step.installDeps c.packageManager false ["@iconify/react"]]
  | Icons.skipIcons => []

/-- React Router install for React/Vite projects. -/
def routerSteps (c : Config) : List Step :=
  if isNextJs c then [] else [Step.installDeps c.packageManager false ["react-router-dom"]]

/-- Axios install (unconditional). -/
def axiosSteps (c : Config) : List Step :=
  [Step.installDeps c.packageManager false ["axios"]]

/-- Steps of the "Setup code quality tools" section. -/
def codeQualitySteps (c : Config) : List Step :=
  if c.codeQuality then
    [Step.installDeps c.packageManager true
       (if isNextJs c then ["prettier", "eslint-config-prettier", "eslint-plugin-prettier"]
        else ["eslint", "prettier", "eslint-config-prettier", "eslint-plugin-prettier"]),
     Step.installDeps c.packageManager true ["husky", "lint-staged", "@commitlint/cli", "@commitlint/config-conventional"],
     Step.runProcess "npx" ["husky", "install"]]
  else []

/-- The folder list built by `createFolderStructure`. -/
def folders (c : Config) : List String :=
  ["src/components/ui", "src/components/layout", "src/components/common", "src/hooks",
   "src/lib", "src/utils", "src/assets/images", "src/assets/icons"] ++
  (if isNextJs c then (if isAppRouter c then ["src/app"] else ["src/pages"])
   else ["src/routes", "src/pages"]) ++
  (if c.stateManagement != StateManagement.skipState then ["src/store"] else []) ++
  (if c.codeQuality then ["src/tests", "src/__tests__", "src/components/__tests__"] else []) ++
  (if isTypeScript c then ["src/types"] else [])

/-- `createFolderStructure` as plan steps. -/
def folderSteps (c : Config) : List Step :=
  (folders c).map Step.ensureDir

/-- `generateStarterFiles` as plan steps, in source order. -/
def fileSteps (c : Config) : List Step :=
  [Step.writeFile ("src/components/ui/Button." ++ fileExt c)
     (generateButtonComponent c.styling (isTypeScript c) c.icons),
   Step.writeFile ("src/components/layout/Layout." ++ fileExt c)
     (generateLayoutComponent c.styling (isTypeScript c) c.icons)] ++
  (if c.styling == Styling.tailwind || c.styling == Styling.shadcn then
     [Step.writeFile ("src/components/common/ThemeToggle." ++ fileExt c)
        (generateThemeToggle (isTypeScript c) c.icons)]
   else []) ++
  [Step.writeFile ("src/lib/api." ++ configExt c) (generateApiClient (isTypeScript c))] ++
  (match c.stateManagement with
   | StateManagement.zustand =>
       [Step.writeFile ("src/store/useAuth." ++ configExt c) (generateZustandStore (isTypeScript c))]
   | StateManagement.redux =>
       [Step.writeFile ("src/store/authSlice." ++ configExt c) (generateReduxSlice (isTypeScript c)),
        Step.writeFile ("src/store/store." ++ configExt c) (generateReduxStore (isTypeScript c))]
   | StateManagement.tanstackQuery =>
       [Step.writeFile ("src/lib/queryClient." ++ configExt c) (generateQueryClient (isTypeScript c))]
   | StateManagement.skipState => []) ++
  (if isNextJs c then [] else
     [Step.writeFile ("src/routes/AppRoutes." ++ fileExt c) (generateReactRoutes (isTypeScript c) (fileExt c)),
      Step.writeFile ("src/App." ++ fileExt c) (generateReactApp (isTypeScript c) (fileExt c)),
      Step.writeFile ("src/pages/HomePage." ++ fileExt c) (generateHomePage (isTypeScript c) (fileExt c)),
      Step.writeFile ("src/pages/AboutPage." ++ fileExt c) (generateAboutPage (isTypeScript c) (fileExt c))]) ++
  [Step.writeFile ("src/components/common/ProtectedRoute." ++ fileExt c)
     (generateProtectedRoute (isTypeScript c) (fileExt c)),
   Step.writeFile ("src/hooks/index." ++ configExt c) (generateCustomHooks (isTypeScript c))] ++
  (if c.codeQuality then
     [Step.writeFile ".eslintrc.json" (generateEslintConfig (isNextJs c)),
      Step.writeFile ".prettierrc" generatePrettierConfig,
      Step.writeFile "commitlint.config.js" generateCommitlintConfig,
      Step.writeFile ".lintstagedrc.json" generateLintStagedConfig,
      Step.ensureDir ".husky",
      Step.writeFile ".husky/pre-commit" huskyPreCommit,
      Step.writeFile ".husky/commit-msg" huskyCommitMsg]
   else []) ++
  [Step.writeFile ("src/utils/index." ++ configExt c) (generateUtils (isTypeScript c))] ++
  (if isTypeScript c then [Step.writeFile "src/types/index.ts" generateTypes] else [])

/-- The `additionalScripts` object computed by `updatePackageJsonScripts`. -/
def scriptEntries (c : Config) : List (String × String) :=
  [("dev", if isNextJs c then "next dev" else "vite"),
   ("build", if isNextJs c then "next build" else "vite build"),
   ("start", if isNextJs c then "next start" else "vite preview")] ++
  (if c.codeQuality then
     [("lint", "eslint . --ext .js,.jsx,.ts,.tsx"),
      ("lint:fix", "eslint . --ext .js,.jsx,.ts,.tsx --fix"),
      ("format", "prettier --write ."),
      ("format:check", "prettier --check .")]
   else [])

/-- The configuration-to-plan compiler: every external operation the script
performs after the bootstrap phase (scaffolder invocation, `chdir`, base
dependency install), in program order, ending with the `package.json` script
merge. -/
def compile (c : Config) : List Step :=
  stylingSteps c ++ stateSteps c ++ iconSteps c ++ routerSteps c ++ axiosSteps c ++
  codeQualitySteps c ++ folderSteps c ++ fileSteps c ++
  [Step.mergeScripts (scriptEntries c)]

/-- A package manifest: the `scripts` map plus all remaining fields,
abstracted as an opaque value of type `R` that the merge never touches. -/
structure Manifest (R : Type) where
  scripts : List (String × String)
  rest : R

/-- Object-spread merge `{ ...base, ...entries }` on string-keyed maps:
keys of `base` keep their position but entries' values win on conflict, and
entries' new keys are appended. -/
def spreadMerge (base entries : List (String × String)) : List (String × String) :=
  base.map (fun kv =>
    match List.lookup kv.1 entries with
    | some v => (kv.1, v)
    | none => kv) ++
  entries.filter (fun kv => (List.lookup kv.1 base).isNone)

/-- Executor semantics of the `MergeManifestScripts` step:
`packageJson.scripts = { ...packageJson.scripts, ...additionalScripts }`,
all other manifest fields copied unchanged. -/
def applyMergeScripts {R : Type} (entries : List (String × String)) (m : Manifest R) : Manifest R :=
  ⟨spreadMerge m.scripts entries, m.rest⟩

/-! ### Step predicates used by the claims -/

/-- A dependency-install step that installs a Tailwind package
(`tailwindcss@latest` / `tailwindcss@next`). -/
def isTailwindInstall (s : Step) : Bool :=
  match s with
  | Step.installDeps _ _ pkgs => pkgs.any (fun p => strPrefix "tailwindcss" p)
  | _ => false

/-- An ESLint / Prettier / Husky (code-quality) step: installing any of the
code-quality packages, writing one of their config files or hook scripts,
creating the `.husky` directory, or running `husky install`. -/
def isCodeQualityStep (s : Step) : Bool :=
  match s with
  | Step.installDeps _ _ pkgs =>
      pkgs.any (fun p =>
        hasSub p "eslint" || hasSub p "prettier" || hasSub p "husky" ||
        hasSub p "commitlint" || hasSub p "lint-staged")
  | Step.writeFile p _ =>
      p == ".eslintrc.json" || p == ".prettierrc" || p == "commitlint.config.js" ||
      p == ".lintstagedrc.json" || strPrefix ".husky/" p
  | Step.ensureDir d => d == ".husky"
  | Step.runProcess _ args => args.any (fun a => hasSub a "husky")
  | Step.mergeScripts _ => false

/-- A `WriteFile` of `src/store/useAuth.ts` whose content imports `create`
from zustand and declares the typed `User` / `AuthState` shapes. -/
def isTypedZustandWrite (s : Step) : Bool :=
  match s with
  | Step.writeFile p content =>
      p == "src/store/useAuth.ts" &&
      hasSub content "import \x7b create \x7d from 'zustand';" &&
      hasSub content "interface User" && hasSub content "interface AuthState"
  | _ => false

/-- A `WriteFile` of `src/store/useAuth.ts` whose content imports `create`
from zustand and declares no interface at all (untyped store). -/
def isUntypedZustandWrite (s : Step) : Bool :=
  match s with
  | Step.writeFile p content =>
      p == "src/store/useAuth.ts" &&
      hasSub content "import \x7b create \x7d from 'zustand';" &&
      !(hasSub content "interface")
  | _ => false

/-- A `WriteFile` of `src/types/index.ts` declaring the typed `User` and
`AuthState` shapes. -/
def isTypesFileWrite (s : Step) : Bool :=
  match s with
  | Step.writeFile p content =>
      p == "src/types/index.ts" &&
      hasSub content "interface User" && hasSub content "interface AuthState"
  | _ => false

/-- The scenario configuration of claim C1: React (Vite), TypeScript,
Tailwind v3, Zustand, Lucide, no code quality. -/
def cfgC1 : Config :=
  ⟨Framework.reactVite, none, Language.typescript, PM.npm, Styling.tailwind,
   some TailwindVersion.v3, StateManagement.zustand, Icons.lucide, false⟩

/-! ### Claim C1 -/

/-- C1 (counterexample): for the scenario configuration the plan does write
`src/store/useAuth.ts` importing `create`, does install Tailwind, and has no
code-quality steps — but the store content declares no typed `User` /
`AuthState` shapes, so the claimed conjunction is false. -/
theorem c1_counterexample :
    ¬ ((compile cfgC1).any isTypedZustandWrite = true ∧
       (compile cfgC1).any isTailwindInstall = true ∧
       (compile cfgC1).all (fun s => !isCodeQualityStep s) = true) := by
  decide

/-- C1 (amended): for the scenario configuration
`{framework=ReactVite, language=TypeScript, styling=Tailwind, tailwindVersion=V3,
stateManagement=Zustand, icons=Lucide, codeQuality=false}` the compiled plan
writes `src/store/useAuth.ts` as an untyped Zustand store importing `create`
(no interface declaration in that file), writes the typed `User` / `AuthState`
interfaces to `src/types/index.ts` instead, contains a Tailwind
dependency-install batch, and contains no ESLint, Prettier, or Husky steps. -/
theorem c1_amended :
    (compile cfgC1).any isUntypedZustandWrite = true ∧
    (compile cfgC1).any isTypesFileWrite = true ∧
    (compile cfgC1).any isTailwindInstall = true ∧
    (compile cfgC1).all (fun s => !isCodeQualityStep s) = true := by
  decide

/-! ### Claim C3 -/

/-- C3 (code bug): with `styling = Tailwind` and `icons = Skip` the generated
Button component references `<Loader2` (and the undefined variable `icons`)
while importing nothing from `lucide-react` — a dangling icon reference in
the emitted file, because the `{disabled && icons === "Lucide" ? ...}` block
of the Button template is literal text rather than an interpolation.  The
Layout component does render the `"☰"` / `"✕"` text-glyph fallback as the
claim requires. -/
theorem c3_button_dangling_loader2 :
    hasSub (generateButtonComponent Styling.tailwind false Icons.skipIcons) "<Loader2" = true ∧
    hasSub (generateButtonComponent Styling.tailwind false Icons.skipIcons) "lucide-react" = false ∧
    hasSub (generateButtonComponent Styling.tailwind false Icons.skipIcons) "icons === \"Lucide\"" = true ∧
    hasSub (generateLayoutComponent Styling.tailwind false Icons.skipIcons) "☰" = true ∧
    hasSub (generateLayoutComponent Styling.tailwind false Icons.skipIcons) "✕" = true ∧
    hasSub (generateLayoutComponent Styling.tailwind false Icons.skipIcons) "lucide-react" = false := by
  decide

/-! ### Claim C8 -/

/-- C8: `compile` and every template generator are pure Lean functions of
their arguments — the embedding of the source performs no I/O, reads no
clock and draws no randomness — so invoking any of them twice on the same
input yields identical (byte-identical) output. -/
theorem c8_determinism (c : Config) (st : Styling) (ts : Bool) (ic : Icons) (ext : String) :
    compile c = compile c ∧
    generateButtonComponent st ts ic = generateButtonComponent st ts ic ∧
    generateLayoutComponent st ts ic = generateLayoutComponent st ts ic ∧
    generateThemeToggle ts ic = generateThemeToggle ts ic ∧
    generateApiClient ts = generateApiClient ts ∧
    generateZustandStore ts = generateZustandStore ts ∧
    generateReduxSlice ts = generateReduxSlice ts ∧
    generateReduxStore ts = generateReduxStore ts ∧
    generateQueryClient ts = generateQueryClient ts ∧
    generateReactRoutes ts ext = generateReactRoutes ts ext ∧
    generateReactApp ts ext = generateReactApp ts ext ∧
    generateHomePage ts ext = generateHomePage ts ext ∧
    generateAboutPage ts ext = generateAboutPage ts ext ∧
    generateProtectedRoute ts ext = generateProtectedRoute ts ext ∧
    generateCustomHooks ts = generateCustomHooks ts ∧
    generateEslintConfig ts = generateEslintConfig ts ∧
    generateUtils ts = generateUtils ts :=
  ⟨rfl, rfl, rfl, rfl, rfl, rfl, rfl, rfl, rfl, rfl, rfl, rfl, rfl, rfl, rfl, rfl, rfl⟩

/-! ### Claim C10 -/

/-- C10: the state-management file generators ignore the language flag — for
both values of `isTypeScript` each of `generateZustandStore`,
`generateReduxSlice` and `generateReduxStore` returns the identical
(untyped) content string, so switching language can change only the written
file's extension, never its content. -/
theorem c10_store_generators_ignore_language (t₁ t₂ : Bool) :
    generateZustandStore t₁ = generateZustandStore t₂ ∧
    generateReduxSlice t₁ = generateReduxSlice t₂ ∧
    generateReduxStore t₁ = generateReduxStore t₂ :=
  ⟨rfl, rfl, rfl⟩

/-! ### Claim C5 -/

/-- Clearing gated fields whose governing field does not select them:
`router` is meaningful only for Next.js, `tailwindVersion` only for
Tailwind styling. -/
def clearGated (c : Config) : Config :=
  { c with
    router := if c.framework == Framework.nextJs then c.router else none,
    tailwindVersion := if c.styling == Styling.tailwind then c.tailwindVersion else none }

/-- A configuration violating the gating invariant: `tailwindVersion` is set
while `styling = Shadcn`. -/
def cfgBadGate : Config :=
  ⟨Framework.reactVite, none, Language.javascript, PM.npm, Styling.shadcn,
   some TailwindVersion.v4, StateManagement.skipState, Icons.skipIcons, false⟩

/-- `cfgBadGate` with the spurious gated field unset (well-formed). -/
def cfgGoodGate : Config :=
  ⟨Framework.reactVite, none, Language.javascript, PM.npm, Styling.shadcn,
   none, StateManagement.skipState, Icons.skipIcons, false⟩

/-- C5 (counterexample): on a configuration with a gated field set while its
governor does not select it (`tailwindVersion = some v4`, `styling = Shadcn`),
`compile` does not fail with any `InvalidConfiguration` error — it returns an
ordinary non-empty plan, identical to the plan of the well-formed
configuration with the gated field unset. -/
theorem c5_counterexample :
    compile cfgBadGate = compile cfgGoodGate ∧ 0 < (compile cfgBadGate).length :=
  ⟨rfl, by decide⟩

/-- C5 (amended): `compile` is total and never raises `InvalidConfiguration`;
a gated field set while its governing field does not select it is simply
ignored — the compiled plan equals that of the configuration with the gated
field cleared. -/
theorem c5_gated_fields_ignored (c : Config) : compile c = compile (clearGated c) := by
  cases c with
  | mk f r l pm st tw sm ic cq => cases f <;> cases st <;> rfl

/-! ### Claim C7 -/

/-- Last element of a list with a single-element tail appended. -/
theorem getLast?_append_single {α : Type} (l : List α) (a : α) :
    (l ++ [a]).getLast? = some a := by
  exact List.getLast?_concat l

/-- Lookup in the overwritten-base part of `spreadMerge`: keys are preserved
and a key present in `entries` is mapped to the entries' value. -/
theorem lookup_map_overwrite (k : String) (entries : List (String × String)) :
    ∀ base : List (String × String),
      List.lookup k (base.map (fun kv =>
        match List.lookup kv.1 entries with
        | some v => (kv.1, v)
        | none => kv)) =
      (match List.lookup k base with
       | some w =>
          (match List.lookup k entries with
           | some v => some v
           | none => some w)
       | none => none) := by
  intro base
  induction base with
  | nil => rfl
  | cons hd tl ih =>
    obtain ⟨a, b⟩ := hd
    by_cases hk : k == a
    · have hka : k = a := eq_of_beq hk
      subst hka
      cases h : List.lookup k entries with
      | some v => simp [List.lookup, h]
      | none => simp [List.lookup, h]
    · cases h : List.lookup a entries with
      | some v =>
        simp only [List.map, List.lookup, h, hk]
        simpa [List.lookup, hk] using ih
      | none =>
        simp only [List.map, List.lookup, h, hk]
        simpa [List.lookup, hk] using ih

/-- Lookup in the appended-new-keys part of `spreadMerge`. -/
theorem lookup_filter_new (k : String) (base : List (String × String)) :
    ∀ entries : List (String × String),
      List.lookup k (entries.filter (fun kv => (List.lookup kv.1 base).isNone)) =
      (if (List.lookup k base).isNone then List.lookup k entries else none) := by
  intro entries
  induction entries with
  | nil => simp [List.filter]
  | cons hd tl ih =>
    obtain ⟨a, b⟩ := hd
    by_cases hk : k == a
    · have hka : k = a := eq_of_beq hk
      subst hka
      cases hb : (List.lookup k base).isNone with
      | true => simp [List.filter, hb, List.lookup, ih]
      | false => simp [List.filter, hb, List.lookup, ih]
    · cases hb : (List.lookup a base).isNone with
      | true => simp [List.filter, hb, List.lookup, hk, ih]
      | false => simp [List.filter, hb, List.lookup, hk, ih]

/-- Lookup distributes over list append. -/
theorem lookup_append (k : String) (l₂ : List (String × String)) :
    ∀ l₁ : List (String × String),
      List.lookup k (l₁ ++ l₂) =
      (match List.lookup k l₁ with
       | some v => some v
       | none => List.lookup k l₂) := by
  intro l₁
  induction l₁ with
  | nil => rfl
  | cons hd tl ih =>
    obtain ⟨a, b⟩ := hd
    by_cases hk : k == a
    · simp [List.lookup, hk]
    · simp [List.lookup, hk, ih]

/-- A key present in the compiler's entries wins the merge. -/
theorem lookup_spreadMerge_entry {k v : String} {base entries : List (String × String)}
    (h : List.lookup k entries = some v) :
    List.lookup k (spreadMerge base entries) = some v := by
  unfold spreadMerge
  rw [lookup_append, lookup_map_overwrite]
  cases hb : List.lookup k base with
  | some w => simp [h]
  | none => simp [lookup_filter_new, hb, h]

/-- A key absent from the compiler's entries keeps its base value. -/
theorem lookup_spreadMerge_keep {k : String} {base entries : List (String × String)}
    (h : List.lookup k entries = none) :
    List.lookup k (spreadMerge base entries) = List.lookup k base := by
  unfold spreadMerge
  rw [lookup_append, lookup_map_overwrite]
  cases hb : List.lookup k base with
  | some w => simp [h]
  | none => simp [lookup_filter_new, hb, h]

/-- C7: for every configuration the `MergeManifestScripts` step is the last
step of the compiled plan, and executing the merge overwrites an existing
`scripts` key that conflicts with a compiler entry with the compiler's value,
keeps non-conflicting keys, and leaves every manifest field other than
`scripts` unchanged. -/
theorem c7_merge_scripts_last_and_semantics :
    (∀ c : Config, (compile c).getLast? = some (Step.mergeScripts (scriptEntries c))) ∧
    (∀ (R : Type) (entries : List (String × String)) (m : Manifest R),
      (applyMergeScripts entries m).rest = m.rest ∧
      (∀ k v, List.lookup k entries = some v →
        List.lookup k (applyMergeScripts entries m).scripts = some v) ∧
      (∀ k, List.lookup k entries = none →
        List.lookup k (applyMergeScripts entries m).scripts = List.lookup k m.scripts)) := by
  constructor
  · intro c
    unfold compile
    rw [List.append_assoc, List.append_assoc, List.append_assoc, List.append_assoc,
        List.append_assoc, List.append_assoc, List.append_assoc]
    rw [show stylingSteps c ++ (stateSteps c ++ (iconSteps c ++ (routerSteps c ++ (axiosSteps c ++
      (codeQualitySteps c ++ (folderSteps c ++ (fileSteps c ++ [Step.mergeScripts (scriptEntries c)]))))))) =
      (stylingSteps c ++ (stateSteps c ++ (iconSteps c ++ (routerSteps c ++ (axiosSteps c ++
      (codeQualitySteps c ++ (folderSteps c ++ fileSteps c))))))) ++ [Step.mergeScripts (scriptEntries c)] by
        simp [List.append_assoc]]
    exact getLast?_append_single _ _
  · intro R entries m
    refine ⟨rfl, ?_, ?_⟩
    · intro k v h
      exact lookup_spreadMerge_entry h
    · intro k h
      exact lookup_spreadMerge_keep h

/-- Witness for C7 at a concrete configuration and manifest: merging the
computed entries into a manifest whose `scripts` already binds `"dev"`
overwrites it with the compiler's `"vite"` entry, keeps the unrelated
`"test"` entry, and leaves the non-`scripts` field untouched. -/
theorem c7_witness :
    (compile cfgC1).getLast? = some (Step.mergeScripts (scriptEntries cfgC1)) ∧
    (applyMergeScripts (scriptEntries cfgC1)
      (⟨[("dev", "old"), ("test", "jest")], 7⟩ : Manifest Nat)).rest = 7 ∧
    List.lookup "dev" (applyMergeScripts (scriptEntries cfgC1)
      (⟨[("dev", "old"), ("test", "jest")], 7⟩ : Manifest Nat)).scripts = some "vite" ∧
    List.lookup "test" (applyMergeScripts (scriptEntries cfgC1)
      (⟨[("dev", "old"), ("test", "jest")], 7⟩ : Manifest Nat)).scripts = some "jest" := by
  refine ⟨c7_merge_scripts_last_and_semantics.1 cfgC1, ?_, ?_, ?_⟩
  · exact (c7_merge_scripts_last_and_semantics.2 Nat (scriptEntries cfgC1)
      ⟨[("dev", "old"), ("test", "jest")], 7⟩).1
  · exact (c7_merge_scripts_last_and_semantics.2 Nat (scriptEntries cfgC1)
      ⟨[("dev", "old"), ("test", "jest")], 7⟩).2.1 "dev" "vite" (by decide)
  · have h := (c7_merge_scripts_last_and_semantics.2 Nat (scriptEntries cfgC1)
      ⟨[("dev", "old"), ("test", "jest")], 7⟩).2.2 "test" (by decide)
    rw [h]
    decide

/-! ### Claim C6 -/

/-- Paths of the `EnsureDirectory` steps of a plan. -/
def ensureDirPaths (plan : List Step) : List String :=
  plan.filterMap (fun s =>
    match s with
    | Step.ensureDir d => some d
    | _ => none)

theorem ensureDirPaths_append (l₁ l₂ : List Step) :
    ensureDirPaths (l₁ ++ l₂) = ensureDirPaths l₁ ++ ensureDirPaths l₂ :=
  List.filterMap_append l₁ l₂ _

theorem ensureDirPaths_stylingSteps (c : Config) : ensureDirPaths (stylingSteps c) = [] := by
  obtain ⟨f, r, l, pm, st, tw, sm, ic, cq⟩ := c
  cases st <;> cases f <;> rfl

theorem ensureDirPaths_stateSteps (c : Config) : ensureDirPaths (stateSteps c) = [] := by
  obtain ⟨f, r, l, pm, st, tw, sm, ic, cq⟩ := c
  cases sm <;> cases l <;> rfl

theorem ensureDirPaths_iconSteps (c : Config) : ensureDirPaths (iconSteps c) = [] := by
  obtain ⟨f, r, l, pm, st, tw, sm, ic, cq⟩ := c
  cases ic <;> rfl

theorem ensureDirPaths_routerSteps (c : Config) : ensureDirPaths (routerSteps c) = [] := by
  obtain ⟨f, r, l, pm, st, tw, sm, ic, cq⟩ := c
  cases f <;> rfl

theorem ensureDirPaths_axiosSteps (c : Config) : ensureDirPaths (axiosSteps c) = [] := rfl

theorem ensureDirPaths_codeQualitySteps (c : Config) :
    ensureDirPaths (codeQualitySteps c) = [] := by
  obtain ⟨f, r, l, pm, st, tw, sm, ic, cq⟩ := c
  cases cq <;> rfl

theorem ensureDirPaths_map_ensureDir (ds : List String) :
    ensureDirPaths (ds.map Step.ensureDir) = ds := by
  induction ds with
  | nil => rfl
  | cons hd tl ih => simp [ensureDirPaths, List.filterMap] at ih ⊢; exact ih

theorem ensureDirPaths_folderSteps (c : Config) :
    ensureDirPaths (folderSteps c) = folders c :=
  ensureDirPaths_map_ensureDir (folders c)

set_option maxHeartbeats 2000000 in
theorem ensureDirPaths_fileSteps (c : Config) :
    ensureDirPaths (fileSteps c) = (if c.codeQuality then [".husky"] else []) := by
  obtain ⟨f, r, l, pm, st, tw, sm, ic, cq⟩ := c
  cases st <;> cases sm <;> cases f <;> cases cq <;> cases l <;> rfl

theorem ensureDirPaths_mergeSingleton (e : List (String × String)) :
    ensureDirPaths [Step.mergeScripts e] = [] := rfl

/-- The plan's `EnsureDirectory` paths are exactly `createFolderStructure`'s
folder list, plus `.husky` when code quality is enabled. -/
theorem ensureDirPaths_compile (c : Config) :
    ensureDirPaths (compile c) = folders c ++ (if c.codeQuality then [".husky"] else []) := by
  unfold compile
  rw [ensureDirPaths_append, ensureDirPaths_append, ensureDirPaths_append,
      ensureDirPaths_append, ensureDirPaths_append, ensureDirPaths_append,
      ensureDirPaths_append, ensureDirPaths_append,
      ensureDirPaths_stylingSteps, ensureDirPaths_stateSteps, ensureDirPaths_iconSteps,
      ensureDirPaths_routerSteps, ensureDirPaths_axiosSteps, ensureDirPaths_codeQualitySteps,
      ensureDirPaths_folderSteps, ensureDirPaths_fileSteps, ensureDirPaths_mergeSingleton]
  simp

/-- An `EnsureDirectory` step is in a plan exactly when its path is among the
plan's `ensureDirPaths`. -/
theorem mem_ensureDirPaths (d : String) (plan : List Step) :
    Step.ensureDir d ∈ plan ↔ d ∈ ensureDirPaths plan := by
  induction plan with
  | nil => simp [ensureDirPaths]
  | cons hd tl ih =>
    cases hd <;> simp [ensureDirPaths, List.filterMap] at ih ⊢ <;> simp [ih]

/-- The base directory set as the claim states it. -/
def claimBaseDirs : List String :=
  ["src/components/ui", "src/components/layout", "src/components/common",
   "src/hooks", "src/lib", "src/utils"]

/-- Framework-dependent routing directories. -/
def claimRoutingDirs (c : Config) : List String :=
  if isNextJs c then (if isAppRouter c then ["src/app"] else ["src/pages"])
  else ["src/routes", "src/pages"]

/-- The directory set exactly as claim C6 states it: a fixed base set united
with routing directories, `store` iff state management chosen, `types` iff
TypeScript, and test directories iff code quality is enabled. -/
def claimDirs (c : Config) : List String :=
  claimBaseDirs ++ claimRoutingDirs c ++
  (if c.stateManagement != StateManagement.skipState then ["src/store"] else []) ++
  (if isTypeScript c then ["src/types"] else []) ++
  (if c.codeQuality then ["src/tests", "src/__tests__", "src/components/__tests__"] else [])

/-- The directory set the code actually produces, stated in the claim's
shape: the claimed set plus the two asset directories always, and `.husky`
when code quality is enabled. -/
def amendedDirs (c : Config) : List String :=
  claimBaseDirs ++ ["src/assets/images", "src/assets/icons"] ++ claimRoutingDirs c ++
  (if c.stateManagement != StateManagement.skipState then ["src/store"] else []) ++
  (if isTypeScript c then ["src/types"] else []) ++
  (if c.codeQuality then
    ["src/tests", "src/__tests__", "src/components/__tests__", ".husky"] else [])

/-- Gating well-formedness: each gated field is present exactly when its
governing field selects it. -/
def WellFormed (c : Config) : Prop :=
  (c.router.isSome ↔ c.framework = Framework.nextJs) ∧
  (c.tailwindVersion.isSome ↔ c.styling = Styling.tailwind)

instance (c : Config) : Decidable (WellFormed c) := by
  unfold WellFormed; infer_instance

/-- A minimal well-formed configuration used as C6's counterexample input. -/
def cfgC6 : Config :=
  ⟨Framework.reactVite, none, Language.javascript, PM.npm, Styling.noStyling,
   none, StateManagement.skipState, Icons.skipIcons, false⟩

/-- C6 (counterexample): at a well-formed configuration the plan's
`EnsureDirectory` set is not the claimed set — `src/assets/images` is
created by the plan but absent from the claimed union. -/
theorem c6_counterexample :
    ¬ (∀ d, d ∈ ensureDirPaths (compile cfgC6) ↔ d ∈ claimDirs cfgC6) := by
  intro h
  have hmem : "src/assets/images" ∈ ensureDirPaths (compile cfgC6) := by decide
  exact absurd ((h "src/assets/images").1 hmem) (by decide)

/-- The code's folder list, re-expressed in the claim's block structure:
base set, asset directories, routing, store, tests, types. -/
theorem folders_eq (c : Config) :
    folders c =
      claimBaseDirs ++ ["src/assets/images", "src/assets/icons"] ++ claimRoutingDirs c ++
      (if c.stateManagement != StateManagement.skipState then ["src/store"] else []) ++
      (if c.codeQuality then ["src/tests", "src/__tests__", "src/components/__tests__"] else []) ++
      (if isTypeScript c then ["src/types"] else []) := rfl

/-- The plan's directory paths are a permutation of `amendedDirs`. -/
theorem foldersHusky_perm_amendedDirs (c : Config) :
    (folders c ++ (if c.codeQuality then [".husky"] else [])).Perm (amendedDirs c) := by
  rw [folders_eq]
  unfold amendedDirs
  cases hcq : c.codeQuality
  · simp only [hcq, Bool.false_eq_true, if_false, List.append_nil, List.append_assoc]
    exact List.Perm.refl _
  · simp only [hcq, if_true, List.append_assoc]
    apply List.Perm.append_left
    apply List.Perm.append_left
    apply List.Perm.append_left
    apply List.Perm.append_left
    rw [show (["src/tests", "src/__tests__", "src/components/__tests__", ".husky"] : List String) =
          ["src/tests", "src/__tests__", "src/components/__tests__"] ++ [".husky"] from rfl]
    rw [← List.append_assoc, ← List.append_assoc]
    exact List.perm_append_comm.append_right _

/-- C6 (amended): for every well-formed configuration the plan's
`EnsureDirectory` set equals the claimed union extended with the two asset
directories (`src/assets/images`, `src/assets/icons`) and, when code quality
is enabled, the `.husky` directory. -/
theorem c6_directory_set (c : Config) (_hwf : WellFormed c) (d : String) :
    d ∈ ensureDirPaths (compile c) ↔ d ∈ amendedDirs c := by
  rw [ensureDirPaths_compile]
  exact (foldersHusky_perm_amendedDirs c).mem_iff

/-- Witness for C6 at `cfgC6`. -/
theorem c6_witness :
    WellFormed cfgC6 ∧
    ("src/assets/images" ∈ ensureDirPaths (compile cfgC6) ↔
      "src/assets/images" ∈ amendedDirs cfgC6) :=
  ⟨by decide, c6_directory_set cfgC6 (by decide) "src/assets/images"⟩

/-! ### Claim C9 -/

/-- Membership in the styling segment lifts to the whole plan. -/
theorem mem_compile_of_styling {c : Config} {s : Step} (h : s ∈ stylingSteps c) :
    s ∈ compile c := by
  unfold compile
  exact List.mem_append_left _ (List.mem_append_left _ (List.mem_append_left _
    (List.mem_append_left _ (List.mem_append_left _ (List.mem_append_left _
      (List.mem_append_left _ (List.mem_append_left _ h)))))))

/-- A folder of `createFolderStructure` yields an `EnsureDirectory` step of
the plan. -/
theorem mem_compile_of_folders {c : Config} {d : String} (h : d ∈ folders c) :
    Step.ensureDir d ∈ compile c := by
  unfold compile
  exact List.mem_append_left _ (List.mem_append_left _ (List.mem_append_right _
    (List.mem_map_of_mem Step.ensureDir h)))

/-- C9: for Next.js with Tailwind or Vanilla CSS styling, the global CSS file
is written to `src/app/globals.css` regardless of the router choice, and for
the Pages Router the plan creates `src/pages` but never `src/app`. -/
theorem c9_globals_css_path (c : Config) (hf : c.framework = Framework.nextJs)
    (hs : c.styling = Styling.tailwind ∨ c.styling = Styling.vanillaCss) :
    (∃ content, Step.writeFile "src/app/globals.css" content ∈ compile c) ∧
    (c.router = some Router.pagesRouter →
      Step.ensureDir "src/pages" ∈ compile c ∧ Step.ensureDir "src/app" ∉ compile c) := by
  obtain ⟨f, r, l, pm, st, tw, sm, ic, cq⟩ := c
  replace hf : f = Framework.nextJs := hf
  subst hf
  constructor
  · rcases hs with hst | hst
    · replace hst : st = Styling.tailwind := hst
      subst hst
      exact ⟨tailwindCssContent, mem_compile_of_styling
        (List.mem_cons_of_mem _ (List.mem_cons_self _ _))⟩
    · replace hst : st = Styling.vanillaCss := hst
      subst hst
      exact ⟨"\x7b\x7d", mem_compile_of_styling (List.mem_cons_self _ _)⟩
  · intro hr
    replace hr : r = some Router.pagesRouter := hr
    subst hr
    constructor
    · exact mem_compile_of_folders (by simp [folders, isNextJs, isAppRouter])
    · rw [mem_ensureDirPaths, ensureDirPaths_compile, folders_eq]
      simp only [claimBaseDirs, claimRoutingDirs, isNextJs, isAppRouter, isTypeScript,
        List.mem_append, List.mem_cons, List.mem_singleton, List.not_mem_nil]
      cases sm <;> cases cq <;> cases l <;> simp

/-- A Next.js / Pages Router / Tailwind configuration. -/
def cfgC9 : Config :=
  ⟨Framework.nextJs, some Router.pagesRouter, Language.javascript, PM.npm,
   Styling.tailwind, some TailwindVersion.v3, StateManagement.skipState,
   Icons.skipIcons, false⟩

/-- Witness for C9 at `cfgC9`. -/
theorem c9_witness :
    cfgC9.framework = Framework.nextJs ∧
    (cfgC9.styling = Styling.tailwind ∨ cfgC9.styling = Styling.vanillaCss) ∧
    cfgC9.router = some Router.pagesRouter ∧
    (∃ content, Step.writeFile "src/app/globals.css" content ∈ compile cfgC9) ∧
    Step.ensureDir "src/pages" ∈ compile cfgC9 ∧
    Step.ensureDir "src/app" ∉ compile cfgC9 := by
  have h := c9_globals_css_path cfgC9 rfl (Or.inl rfl)
  exact ⟨rfl, Or.inl rfl, rfl, h.1, (h.2 rfl).1, (h.2 rfl).2⟩

/-! ### Claim C2 -/

/-- A step is Tailwind-clean when it neither installs a Tailwind package nor
writes content containing the `@tailwind` directive. -/
def twClean (s : Step) : Bool :=
  match s with
  | Step.installDeps _ _ pkgs => !(pkgs.any (fun p => strPrefix "tailwindcss" p))
  | Step.writeFile _ content => !(hasSub content "@tailwind")
  | _ => true

theorem noTw_button_vanilla :
    ∀ ts : Bool, ∀ ic : Icons,
      hasSub (generateButtonComponent Styling.vanillaCss ts ic) "@tailwind" = false := by
  decide

theorem noTw_button_none :
    ∀ ts : Bool, ∀ ic : Icons,
      hasSub (generateButtonComponent Styling.noStyling ts ic) "@tailwind" = false := by
  decide

/-- The Layout generator never reads its styling argument. -/
theorem layout_styling_const (st : Styling) (ts : Bool) (ic : Icons) :
    generateLayoutComponent st ts ic = generateLayoutComponent Styling.vanillaCss ts ic := rfl

theorem noTw_layout_skip :
    ∀ ts : Bool, hasSub (generateLayoutComponent Styling.vanillaCss ts Icons.skipIcons) "@tailwind" = false := by
  decide

theorem noTw_layout_lucide :
    ∀ ts : Bool, hasSub (generateLayoutComponent Styling.vanillaCss ts Icons.lucide) "@tailwind" = false := by
  decide

theorem layout_reactIcons_const (ts : Bool) :
    generateLayoutComponent Styling.vanillaCss ts Icons.reactIcons =
    generateLayoutComponent Styling.vanillaCss ts Icons.skipIcons := rfl

theorem layout_iconify_const (ts : Bool) :
    generateLayoutComponent Styling.vanillaCss ts Icons.iconify =
    generateLayoutComponent Styling.vanillaCss ts Icons.skipIcons := rfl

theorem noTw_layout (st : Styling) (ts : Bool) (ic : Icons) :
    hasSub (generateLayoutComponent st ts ic) "@tailwind" = false := by
  rw [layout_styling_const]
  cases ic
  case lucide => exact noTw_layout_lucide ts
  case reactIcons => rw [layout_reactIcons_const]; exact noTw_layout_skip ts
  case iconify => rw [layout_iconify_const]; exact noTw_layout_skip ts
  case skipIcons => exact noTw_layout_skip ts

theorem noTw_button (st : Styling) (ts : Bool) (ic : Icons)
    (hs : st = Styling.vanillaCss ∨ st = Styling.noStyling) :
    hasSub (generateButtonComponent st ts ic) "@tailwind" = false := by
  rcases hs with h | h <;> subst h
  · exact noTw_button_vanilla ts ic
  · exact noTw_button_none ts ic

theorem noTw_api : ∀ ts : Bool, hasSub (generateApiClient ts) "@tailwind" = false := by decide

theorem noTw_zustand : ∀ ts : Bool, hasSub (generateZustandStore ts) "@tailwind" = false := by decide

theorem noTw_reduxSlice : ∀ ts : Bool, hasSub (generateReduxSlice ts) "@tailwind" = false := by decide

theorem noTw_reduxStore : ∀ ts : Bool, hasSub (generateReduxStore ts) "@tailwind" = false := by decide

theorem noTw_queryClient : ∀ ts : Bool, hasSub (generateQueryClient ts) "@tailwind" = false := by decide

theorem noTw_routes (ts : Bool) (e : String) :
    hasSub (generateReactRoutes ts e) "@tailwind" = false := by
  rw [show generateReactRoutes ts e = generateReactRoutes ts "" from rfl]
  revert ts; decide

theorem noTw_reactApp (ts : Bool) (e : String) :
    hasSub (generateReactApp ts e) "@tailwind" = false := by
  rw [show generateReactApp ts e = generateReactApp ts "" from rfl]
  revert ts; decide

theorem noTw_homePage (ts : Bool) (e : String) :
    hasSub (generateHomePage ts e) "@tailwind" = false := by
  rw [show generateHomePage ts e = generateHomePage ts "" from rfl]
  revert ts; decide

theorem noTw_aboutPage (ts : Bool) (e : String) :
    hasSub (generateAboutPage ts e) "@tailwind" = false := by
  rw [show generateAboutPage ts e = generateAboutPage ts "" from rfl]
  revert ts; decide

theorem noTw_protectedRoute (ts : Bool) (e : String) :
    hasSub (generateProtectedRoute ts e) "@tailwind" = false := by
  rw [show generateProtectedRoute ts e = generateProtectedRoute ts "" from rfl]
  revert ts; decide

theorem noTw_hooks : ∀ ts : Bool, hasSub (generateCustomHooks ts) "@tailwind" = false := by decide

theorem noTw_utils : ∀ ts : Bool, hasSub (generateUtils ts) "@tailwind" = false := by decide

theorem noTw_eslint : ∀ b : Bool, hasSub (generateEslintConfig b) "@tailwind" = false := by decide

theorem noTw_prettier : hasSub generatePrettierConfig "@tailwind" = false := by decide

theorem noTw_commitlint : hasSub generateCommitlintConfig "@tailwind" = false := by decide

theorem noTw_lintstaged : hasSub generateLintStagedConfig "@tailwind" = false := by decide

theorem noTw_huskyPre : hasSub huskyPreCommit "@tailwind" = false := by decide

theorem noTw_huskyMsg : hasSub huskyCommitMsg "@tailwind" = false := by decide

theorem noTw_types : hasSub generateTypes "@tailwind" = false := by decide

theorem twClean_stylingSteps (c : Config)
    (hs : c.styling = Styling.vanillaCss ∨ c.styling = Styling.noStyling) :
    ∀ s ∈ stylingSteps c, twClean s = true := by
  have hall : (stylingSteps c).all twClean = true := by
    obtain ⟨f, r, l, pm, st, tw, sm, ic, cq⟩ := c
    rcases hs with h | h <;> (replace h : st = _ := h; subst h) <;> rfl
  exact fun s h => List.all_eq_true.1 hall s h

theorem twClean_stateSteps (c : Config) : ∀ s ∈ stateSteps c, twClean s = true := by
  have hall : (stateSteps c).all twClean = true := by
    obtain ⟨f, r, l, pm, st, tw, sm, ic, cq⟩ := c
    cases sm <;> cases l <;> rfl
  exact fun s h => List.all_eq_true.1 hall s h

theorem twClean_iconSteps (c : Config) : ∀ s ∈ iconSteps c, twClean s = true := by
  have hall : (iconSteps c).all twClean = true := by
    obtain ⟨f, r, l, pm, st, tw, sm, ic, cq⟩ := c
    cases ic <;> rfl
  exact fun s h => List.all_eq_true.1 hall s h

theorem twClean_routerSteps (c : Config) : ∀ s ∈ routerSteps c, twClean s = true := by
  have hall : (routerSteps c).all twClean = true := by
    obtain ⟨f, r, l, pm, st, tw, sm, ic, cq⟩ := c
    cases f <;> rfl
  exact fun s h => List.all_eq_true.1 hall s h

theorem twClean_axiosSteps (c : Config) : ∀ s ∈ axiosSteps c, twClean s = true := by
  have hall : (axiosSteps c).all twClean = true := rfl
  exact fun s h => List.all_eq_true.1 hall s h

theorem twClean_codeQualitySteps (c : Config) : ∀ s ∈ codeQualitySteps c, twClean s = true := by
  have hall : (codeQualitySteps c).all twClean = true := by
    obtain ⟨f, r, l, pm, st, tw, sm, ic, cq⟩ := c
    cases cq <;> cases f <;> rfl
  exact fun s h => List.all_eq_true.1 hall s h

theorem twClean_folderSteps (c : Config) : ∀ s ∈ folderSteps c, twClean s = true := by
  have hall : ∀ ds : List String, (ds.map Step.ensureDir).all twClean = true := by
    intro ds
    induction ds with
    | nil => rfl
    | cons hd tl ih => simpa [List.all_cons, twClean] using ih
  exact fun s h => List.all_eq_true.1 (hall (folders c)) s h

theorem twClean_fileSteps (c : Config)
    (hs : c.styling = Styling.vanillaCss ∨ c.styling = Styling.noStyling) :
    ∀ s ∈ fileSteps c, twClean s = true := by
  intro s h
  unfold fileSteps at h
  rcases List.mem_append.1 h with h | h9
  · rcases List.mem_append.1 h with h | h8
    · rcases List.mem_append.1 h with h | h7
      · rcases List.mem_append.1 h with h | h6
        · rcases List.mem_append.1 h with h | h5
          · rcases List.mem_append.1 h with h | h4
            · rcases List.mem_append.1 h with h | h3
              · rcases List.mem_append.1 h with h1 | h2
                · -- Button and Layout writes
                  rcases h1 with _ | ⟨_, _ | ⟨_, h⟩⟩
                  · simp [twClean, noTw_button c.styling (isTypeScript c) c.icons hs]
                  · simp [twClean, noTw_layout]
                  · cases h
                · -- ThemeToggle chunk: empty under vanilla / none styling
                  rcases hs with hst | hst <;> rw [hst] at h2 <;>
                    rw [if_neg (by decide)] at h2 <;> cases h2
              · -- api client write
                rcases h3 with _ | ⟨_, h⟩
                · simp [twClean, noTw_api]
                · cases h
            · -- state-management writes
              split at h4
              · rcases h4 with _ | ⟨_, h⟩
                · simp [twClean, noTw_zustand]
                · cases h
              · rcases h4 with _ | ⟨_, _ | ⟨_, h⟩⟩
                · simp [twClean, noTw_reduxSlice]
                · simp [twClean, noTw_reduxStore]
                · cases h
              · rcases h4 with _ | ⟨_, h⟩
                · simp [twClean, noTw_queryClient]
                · cases h
              · cases h4
          · -- React Router / App / pages writes (Vite only)
            split at h5
            · cases h5
            · rcases h5 with _ | ⟨_, _ | ⟨_, _ | ⟨_, _ | ⟨_, h⟩⟩⟩⟩
              · simp [twClean, noTw_routes]
              · simp [twClean, noTw_reactApp]
              · simp [twClean, noTw_homePage]
              · simp [twClean, noTw_aboutPage]
              · cases h
        · -- ProtectedRoute and hooks writes
          rcases h6 with _ | ⟨_, _ | ⟨_, h⟩⟩
          · simp [twClean, noTw_protectedRoute]
          · simp [twClean, noTw_hooks]
          · cases h
      · -- code-quality config and husky writes
        split at h7
        · rcases h7 with _ | ⟨_, _ | ⟨_, _ | ⟨_, _ | ⟨_, _ | ⟨_, _ | ⟨_, _ | ⟨_, h⟩⟩⟩⟩⟩⟩⟩
          · simp [twClean, noTw_eslint]
          · simp [twClean, noTw_prettier]
          · simp [twClean, noTw_commitlint]
          · simp [twClean, noTw_lintstaged]
          · simp [twClean]
          · simp [twClean, noTw_huskyPre]
          · simp [twClean, noTw_huskyMsg]
          · cases h
        · cases h7
    · -- utils write
      rcases h8 with _ | ⟨_, h⟩
      · simp [twClean, noTw_utils]
      · cases h
  · -- types write (TypeScript only)
    split at h9
    · rcases h9 with _ | ⟨_, h⟩
      · simp [twClean, noTw_types]
      · cases h
    · cases h9

/-- Every step of the plan is Tailwind-clean when styling is Vanilla CSS or
None. -/
theorem twClean_compile (c : Config)
    (hs : c.styling = Styling.vanillaCss ∨ c.styling = Styling.noStyling) :
    ∀ s ∈ compile c, twClean s = true := by
  intro s h
  unfold compile at h
  rcases List.mem_append.1 h with h | hm
  · rcases List.mem_append.1 h with h | hFile
    · rcases List.mem_append.1 h with h | hFolder
      · rcases List.mem_append.1 h with h | hCq
        · rcases List.mem_append.1 h with h | hAx
          · rcases List.mem_append.1 h with h | hRt
            · rcases List.mem_append.1 h with h | hIc
              · rcases List.mem_append.1 h with hSty | hSt
                · exact twClean_stylingSteps c hs s hSty
                · exact twClean_stateSteps c s hSt
              · exact twClean_iconSteps c s hIc
            · exact twClean_routerSteps c s hRt
          · exact twClean_axiosSteps c s hAx
        · exact twClean_codeQualitySteps c s hCq
      · exact twClean_folderSteps c s hFolder
    · exact twClean_fileSteps c hs s hFile
  · rcases hm with _ | ⟨_, h⟩
    · rfl
    · cases h

/-- C2 (amended): for every configuration with styling Vanilla CSS or None,
the plan contains no step installing a Tailwind package and no generated
file's content contains a `@tailwind` directive.  (For Shadcn the plan does
install Tailwind — see the counterexample — and generated components carry
Tailwind utility class names under every styling.) -/
theorem c2_no_tailwind_when_plain_styling (c : Config)
    (hs : c.styling = Styling.vanillaCss ∨ c.styling = Styling.noStyling) :
    (∀ s ∈ compile c, isTailwindInstall s = false) ∧
    (∀ p content, Step.writeFile p content ∈ compile c →
      hasSub content "@tailwind" = false) := by
  constructor
  · intro s h
    have hc := twClean_compile c hs s h
    cases s <;> simp [twClean, isTailwindInstall] at hc ⊢
    exact hc
  · intro p content h
    have hc := twClean_compile c hs _ h
    simpa [twClean] using hc

/-- A Shadcn configuration (styling ≠ Tailwind) on React/Vite. -/
def cfgC2 : Config :=
  ⟨Framework.reactVite, none, Language.javascript, PM.npm, Styling.shadcn,
   none, StateManagement.skipState, Icons.skipIcons, false⟩

/-- C2 (counterexample): with `styling = Shadcn` — a styling different from
Tailwind — the compiled plan nevertheless contains an `InstallDependencies`
step installing `tailwindcss@latest` (Shadcn is built on Tailwind). -/
theorem c2_counterexample :
    cfgC2.styling ≠ Styling.tailwind ∧
    Step.installDeps PM.npm true ["tailwindcss@latest", "autoprefixer", "postcss"] ∈ compile cfgC2 ∧
    isTailwindInstall
      (Step.installDeps PM.npm true ["tailwindcss@latest", "autoprefixer", "postcss"]) = true := by
  refine ⟨by decide, ?_, by decide⟩
  exact List.mem_append_left _ (List.mem_append_left _ (List.mem_append_left _
    (List.mem_append_left _ (List.mem_append_left _ (List.mem_append_left _
      (List.mem_append_left _ (List.mem_append_left _ (List.mem_cons_self _ _))))))))

/-- A Vanilla-CSS configuration used as C2's witness input. -/
def cfgC2V : Config :=
  ⟨Framework.reactVite, none, Language.javascript, PM.npm, Styling.vanillaCss,
   none, StateManagement.skipState, Icons.skipIcons, false⟩

/-- Witness for C2 at `cfgC2V`: the plan's first step writes the placeholder
CSS file and its content carries no `@tailwind` directive; the axios install
is not a Tailwind install. -/
theorem c2_witness :
    (cfgC2V.styling = Styling.vanillaCss ∨ cfgC2V.styling = Styling.noStyling) ∧
    hasSub "\x7b\x7d" "@tailwind" = false ∧
    isTailwindInstall (Step.installDeps PM.npm false ["axios"]) = false := by
  refine ⟨Or.inl rfl, ?_, ?_⟩
  · exact (c2_no_tailwind_when_plain_styling cfgC2V (Or.inl rfl)).2 "src/index.css" "\x7b\x7d"
      (List.mem_append_left _ (List.mem_append_left _ (List.mem_append_left _
        (List.mem_append_left _ (List.mem_append_left _ (List.mem_append_left _
          (List.mem_append_left _ (List.mem_append_left _ (List.mem_cons_self _ _)))))))))
  · exact (c2_no_tailwind_when_plain_styling cfgC2V (Or.inl rfl)).1 _
      (List.mem_append_left _ (List.mem_append_left _ (List.mem_append_left _
        (List.mem_append_left _ (List.mem_append_right _ (List.mem_cons_self _ _))))))

/-! ### Claim C4 -/

/-- All directories produced by `ensureDir d` (`fs.ensureDir` creates parents
recursively): every proper slash-prefix of `d` and `d` itself. -/
def dirPrefixes (d : String) : List String :=
  ((List.range d.toList.length).filterMap (fun i =>
    if d.toList.get? i = some '/' then some (String.mk (d.toList.take i)) else none)) ++ [d]

/-- `coversFile d p` holds when some directory produced by `ensureDir d` is a
proper directory prefix of the file path `p`. -/
def coversFile (d p : String) : Bool :=
  (dirPrefixes d).any (fun q => strPrefix (q ++ "/") p)

/-- A write step touching only the project root or one of the two global CSS
paths written before the folder-structure phase. -/
def rootOnlyWrite (s : Step) : Bool :=
  match s with
  | Step.writeFile p _ =>
      !(strPrefix "src/" p) || p == "src/app/globals.css" || p == "src/index.css"
  | _ => true

/-- The plan segments preceding `createFolderStructure`. -/
def preSteps (c : Config) : List Step :=
  stylingSteps c ++ stateSteps c ++ iconSteps c ++ routerSteps c ++ axiosSteps c ++
  codeQualitySteps c

theorem compile_decomp (c : Config) :
    compile c = (preSteps c ++ folderSteps c) ++
      (fileSteps c ++ [Step.mergeScripts (scriptEntries c)]) := by
  simp [compile, preSteps, List.append_assoc]

theorem rootOnly_stylingSteps (c : Config) : (stylingSteps c).all rootOnlyWrite = true := by
  obtain ⟨f, r, l, pm, st, tw, sm, ic, cq⟩ := c
  cases st <;> cases f <;> cases l <;> rfl

theorem rootOnly_stateSteps (c : Config) : (stateSteps c).all rootOnlyWrite = true := by
  obtain ⟨f, r, l, pm, st, tw, sm, ic, cq⟩ := c
  cases sm <;> cases l <;> rfl

theorem rootOnly_iconSteps (c : Config) : (iconSteps c).all rootOnlyWrite = true := by
  obtain ⟨f, r, l, pm, st, tw, sm, ic, cq⟩ := c
  cases ic <;> rfl

theorem rootOnly_routerSteps (c : Config) : (routerSteps c).all rootOnlyWrite = true := by
  obtain ⟨f, r, l, pm, st, tw, sm, ic, cq⟩ := c
  cases f <;> rfl

theorem rootOnly_axiosSteps (c : Config) : (axiosSteps c).all rootOnlyWrite = true := rfl

theorem rootOnly_codeQualitySteps (c : Config) :
    (codeQualitySteps c).all rootOnlyWrite = true := by
  obtain ⟨f, r, l, pm, st, tw, sm, ic, cq⟩ := c
  cases cq <;> cases f <;> rfl

/-- Every write before `createFolderStructure` is a root file or one of the
two global CSS files. -/
theorem rootOnly_preSteps (c : Config) : (preSteps c).all rootOnlyWrite = true := by
  unfold preSteps
  rw [List.all_append, List.all_append, List.all_append, List.all_append, List.all_append,
      rootOnly_stylingSteps, rootOnly_stateSteps, rootOnly_iconSteps, rootOnly_routerSteps,
      rootOnly_axiosSteps, rootOnly_codeQualitySteps]
  rfl

/-- `createFolderStructure` emits no file writes. -/
theorem no_write_in_folderSteps (c : Config) (p content : String) :
    Step.writeFile p content ∉ folderSteps c := by
  intro h
  rcases List.mem_map.1 h with ⟨d, _, heq⟩
  exact Step.noConfusion heq

/-- Splitting a `get?` over an append. -/
theorem get?_append_cases {α : Type} (l₁ l₂ : List α) (i : Nat) (x : α)
    (h : (l₁ ++ l₂).get? i = some x) :
    (i < l₁.length ∧ l₁.get? i = some x) ∨
    (l₁.length ≤ i ∧ l₂.get? (i - l₁.length) = some x) := by
  induction l₁ generalizing i with
  | nil => right; simpa using h
  | cons hd tl ih =>
    cases i with
    | zero => left; exact ⟨Nat.succ_pos _, h⟩
    | succ n =>
      rcases ih n h with ⟨h1, h2⟩ | ⟨h1, h2⟩
      · left; exact ⟨Nat.succ_lt_succ h1, h2⟩
      · right
        refine ⟨Nat.succ_le_succ h1, ?_⟩
        simpa [Nat.succ_sub_succ] using h2

/-- `get?` at an offset past a prefix list. -/
theorem get?_append_add {α : Type} (l₁ l₂ : List α) (k : Nat) :
    (l₁ ++ l₂).get? (l₁.length + k) = l₂.get? k := by
  induction l₁ with
  | nil => simp
  | cons hd tl ih => simpa [Nat.succ_add] using ih

/-- `get?` within the prefix of an append. -/
theorem get?_append_lt {α : Type} (l₁ l₂ : List α) (k : Nat) (h : k < l₁.length) :
    (l₁ ++ l₂).get? k = l₁.get? k := by
  induction l₁ generalizing k with
  | nil => exact absurd h (Nat.not_lt_zero k)
  | cons hd tl ih =>
    cases k with
    | zero => rfl
    | succ n => exact ih n (Nat.lt_of_succ_lt_succ h)

/-- A successful `get?` index is within bounds. -/
theorem get?_some_lt {α : Type} {l : List α} {n : Nat} {a : α}
    (h : l.get? n = some a) : n < l.length := by
  induction l generalizing n with
  | nil => exact absurd h (by simp)
  | cons hd tl ih =>
    cases n with
    | zero => exact Nat.succ_pos _
    | succ m => exact Nat.succ_lt_succ (ih h)

/-- A `MergeManifestScripts` singleton holds no file write. -/
theorem no_write_in_merge_singleton (e : List (String × String)) (n : Nat)
    (p content : String)
    (h : [Step.mergeScripts e].get? n = some (Step.writeFile p content)) : False := by
  cases n with
  | zero => exact Step.noConfusion (Option.some.inj h)
  | succ m => exact Option.noConfusion h

/-- A write step under `src/` that is covered by the folder set: some folder
of `createFolderStructure` produces a directory prefix of its path. -/
def srcCovered (c : Config) (s : Step) : Bool :=
  match s with
  | Step.writeFile p _ =>
      !(strPrefix "src/" p) || (folders c).any (fun d => coversFile d p)
  | _ => true

set_option maxHeartbeats 2000000 in
theorem fileSteps_srcCovered (c : Config) : (fileSteps c).all (srcCovered c) = true := by
  obtain ⟨f, r, l, pm, st, tw, sm, ic, cq⟩ := c
  cases st <;> cases sm <;> cases f <;> cases cq <;> cases l <;> rfl

/-- Every `src/`-prefixed write of `generateStarterFiles` has a covering
folder in `createFolderStructure`'s list. -/
theorem fileSteps_covered (c : Config) (p content : String)
    (h : Step.writeFile p content ∈ fileSteps c)
    (hsrc : strPrefix "src/" p = true) :
    ∃ d, d ∈ folders c ∧ coversFile d p = true := by
  have hb := List.all_eq_true.1 (fileSteps_srcCovered c) _ h
  simp only [srcCovered, hsrc, Bool.not_true, Bool.false_or] at hb
  rcases List.any_eq_true.1 hb with ⟨d, hd, hcov⟩
  exact ⟨d, hd, hcov⟩

/-- C4 (amended): every `WriteFile` step of the plan whose path lies under
`src/`, other than the two global-CSS writes of the styling phase
(`src/app/globals.css`, `src/index.css`), is preceded in plan order by an
`EnsureDirectory` step producing a prefix directory of that path. -/
theorem c4_write_covered (c : Config) (i : Nat) (p content : String)
    (hget : (compile c).get? i = some (Step.writeFile p content))
    (hsrc : strPrefix "src/" p = true)
    (hex1 : p ≠ "src/app/globals.css") (hex2 : p ≠ "src/index.css") :
    ∃ j d, j < i ∧ (compile c).get? j = some (Step.ensureDir d) ∧
      coversFile d p = true := by
  rw [compile_decomp] at hget
  rcases get?_append_cases _ _ _ _ hget with ⟨hlt, hget1⟩ | ⟨hge, hget2⟩
  · exfalso
    rcases get?_append_cases _ _ _ _ hget1 with ⟨_, hgetP⟩ | ⟨_, hgetF⟩
    · have hb := List.all_eq_true.1 (rootOnly_preSteps c) _ (List.get?_mem hgetP)
      simp [rootOnlyWrite, hsrc, hex1, hex2] at hb
    · exact no_write_in_folderSteps c p content (List.get?_mem hgetF)
  · rcases get?_append_cases _ _ _ _ hget2 with ⟨_, hgetFS⟩ | ⟨_, hgetM⟩
    · rcases fileSteps_covered c p content (List.get?_mem hgetFS) hsrc with ⟨d, hd, hcov⟩
      obtain ⟨k, hk⟩ := List.get?_of_mem hd
      have hklen : k < (folderSteps c).length := by
        rw [folderSteps, List.length_map]
        exact get?_some_lt hk
      have hjlt : (preSteps c).length + k < (preSteps c ++ folderSteps c).length := by
        rw [List.length_append]
        exact Nat.add_lt_add_left hklen _
      refine ⟨(preSteps c).length + k, d, ?_, ?_, hcov⟩
      · exact Nat.lt_of_lt_of_le hjlt hge
      · rw [compile_decomp, get?_append_lt _ _ _ hjlt, get?_append_add, folderSteps,
            List.get?_map, hk]
        rfl
    · exact absurd hgetM (fun h => no_write_in_merge_singleton _ _ _ _ h)

/-- A React/Vite Tailwind configuration whose plan writes `src/index.css`
before any `EnsureDirectory` step. -/
def cfgC4 : Config :=
  ⟨Framework.reactVite, none, Language.javascript, PM.npm, Styling.tailwind,
   some TailwindVersion.v3, StateManagement.skipState, Icons.skipIcons, false⟩

/-- C4 (counterexample): in `cfgC4`'s plan the `WriteFile` of
`src/index.css` sits at index 3 while no `EnsureDirectory` step precedes it
(the first directory steps only come with `createFolderStructure`, after the
install phases), so the claim as stated fails for the global-CSS write. -/
theorem c4_counterexample :
    (compile cfgC4).get? 3 = some (Step.writeFile "src/index.css" tailwindCssContent) ∧
    strPrefix "src/" "src/index.css" = true ∧
    ((compile cfgC4).take 3).all (fun s =>
      match s with
      | Step.ensureDir _ => false
      | _ => true) = true :=
  ⟨rfl, by decide, by decide⟩

/-- Witness for C4 at `cfgC4`: the Button write at index 16 is preceded by a
covering `EnsureDirectory` step. -/
theorem c4_witness :
    (compile cfgC4).get? 16 = some (Step.writeFile "src/components/ui/Button.jsx"
      (generateButtonComponent Styling.tailwind false Icons.skipIcons)) ∧
    strPrefix "src/" "src/components/ui/Button.jsx" = true ∧
    (∃ j d, j < 16 ∧ (compile cfgC4).get? j = some (Step.ensureDir d) ∧
      coversFile d "src/components/ui/Button.jsx" = true) :=
  ⟨rfl, by decide,
   c4_write_covered cfgC4 16 "src/components/ui/Button.jsx"
     (generateButtonComponent Styling.tailwind false Icons.skipIcons)
     rfl (by decide) (by decide) (by decide)⟩

end CreatePrtw
